import Mathlib

/-!
# Verification of `validate-certificates.py`

Shallow embedding of the OpenCTI certificate validator script.  The script is
sequential glue around external effects (filesystem stats, two `openssl`
subprocess invocations per service, `strptime`, and a TCP/TLS probe), so the
embedding makes every external effect an oracle field of an `Env` record and
translates each Python function into a pure Lean function of that record.
Subprocess and probe attempts are additionally returned as explicit traces so
that claims of the form "no invocation is attempted" can be stated.
-/

namespace CertValidator

/-- ANSI color codes from the script's `Colors` class. -/
def Colors.RED : String := "\x1b[0;31m"

def Colors.GREEN : String := "\x1b[0;32m"

def Colors.YELLOW : String := "\x1b[1;33m"

def Colors.BLUE : String := "\x1b[0;34m"

def Colors.NC : String := "\x1b[0m"

/-- The fixed service-to-port dictionary `self.services` (insertion order). -/
def services : List (String × Nat) :=
  [("redis", 6380), ("elasticsearch", 9200), ("minio", 9000),
   ("rabbitmq", 5671), ("opencti", 8080)]

/-- The service names, in dictionary iteration order. -/
def serviceNames : List String := services.map Prod.fst

/-- Path `<root>/ca/ca.crt`. -/
def caCrtPath (root : String) : String := root ++ "/ca/ca.crt"

/-- Path `<root>/ca/ca.key`. -/
def caKeyPath (root : String) : String := root ++ "/ca/ca.key"

/-- Path `<root>/<service>/<service>.crt`. -/
def certPath (root service : String) : String :=
  root ++ "/" ++ service ++ "/" ++ service ++ ".crt"

/-- Path `<root>/<service>/<service>.key`. -/
def keyPath (root service : String) : String :=
  root ++ "/" ++ service ++ "/" ++ service ++ ".key"

/-- Path `<root>/<service>/ca.crt` (the service-local CA copy). -/
def svcCaPath (root service : String) : String :=
  root ++ "/" ++ service ++ "/ca.crt"

/-- Python `str.strip()` with no argument: remove leading and trailing
whitespace. -/
def pythonStrip (s : String) : String :=
  String.mk
    (((s.data.dropWhile Char.isWhitespace).reverse.dropWhile
        Char.isWhitespace).reverse)

/-- Python `str.split(sep)` for a one-character separator: split at every
occurrence, separators removed, empty pieces kept. -/
def pythonSplit (sep : Char) (s : String) : List String :=
  (s.data.splitOn sep).map String.mk

/-- Outcome of a `subprocess.run` call: either the process completed with a
return code, stdout and stderr, or the call itself raised an exception whose
text `str(e)` is recorded. -/
inductive SubpOutcome where
  | completed (returncode : Int) (stdout : String) (stderr : String)
  | raised (msg : String)
deriving DecidableEq

/-- Outcome of the TCP connection plus TLS handshake attempted by
`test_ssl_connectivity` for one service: the four branches of its
`try`/`except` chain. -/
inductive ConnOutcome where
  | success
  | timeout
  | refused
  | failure (msg : String)
deriving DecidableEq

/-- One external verifier invocation, tagged with the service it was run for:
`openssl verify -CAfile <ca> <cert>` or `openssl x509 -in <cert> -noout -enddate`. -/
inductive VerifierCmd where
  | verify (service : String)
  | enddate (service : String)
deriving DecidableEq

/-- The external world the script interacts with.  `pathExists` is
`Path.exists`; `runVerify` and `runEnddate` give the outcome of the two
`openssl` subprocess invocations for a given service; `strptime` is
`datetime.datetime.strptime` with format `%b %d %H:%M:%S %Y %Z`, returning the
parsed time in seconds or the exception text; `now` is
`datetime.datetime.now()` in seconds; `connect` is the TCP/TLS probe outcome
per service. -/
structure Env where
  pathExists : String → Bool
  runVerify : String → SubpOutcome
  runEnddate : String → SubpOutcome
  strptime : String → Except String Int
  now : Int
  connect : String → ConnOutcome

/-- One entry of the validity-results dictionary: either
`{valid: True, expires: ..., days_left: ...}` (with `days_left` absent when
the expiry is `Unknown`) or `{valid: False, reason: ...}`. -/
inductive VRes where
  | valid (expires : String) (days_left : Option Int)
  | invalid (reason : String)
deriving DecidableEq

/-- `v.get('valid', False)` on a validity entry. -/
def VRes.isValid : VRes → Bool
  | VRes.valid _ _ => true
  | VRes.invalid _ => false

/-- `validate_certificate_files`: the CA entry requires both `ca.crt` and
`ca.key`; each service entry requires certificate, key and local CA copy. -/
def validate_certificate_files (env : Env) (root : String) :
    List (String × Bool) :=
  ("ca", env.pathExists (caCrtPath root) && env.pathExists (caKeyPath root)) ::
    services.map (fun sp =>
      (sp.fst,
       env.pathExists (certPath root sp.fst) &&
         env.pathExists (keyPath root sp.fst) &&
         env.pathExists (svcCaPath root sp.fst)))

/-- The loop body of `check_certificate_validity` for one service: the
resulting dictionary entry together with the trace of `openssl` invocations
attempted for this service.  Mirrors the source: a missing certificate file
short-circuits before any invocation; the `try` block runs `openssl verify`,
then on success `openssl x509 -enddate`; a zero-status enddate output is
processed by `stdout.strip().split('=')[1]` and `strptime`, and any exception
raised inside the `try` block (spawn failure, index error on the split,
unparseable date) yields `{valid: False, reason: str(e)}`. -/
def checkServiceValidity (env : Env) (root service : String) :
    VRes × List VerifierCmd :=
  if env.pathExists (certPath root service) = false then
    (VRes.invalid "Certificate file not found", [])
  else
    match env.runVerify service with
    | SubpOutcome.raised msg => (VRes.invalid msg, [VerifierCmd.verify service])
    | SubpOutcome.completed rc _ stderr =>
      if rc = 0 then
        match env.runEnddate service with
        | SubpOutcome.raised msg =>
            (VRes.invalid msg,
             [VerifierCmd.verify service, VerifierCmd.enddate service])
        | SubpOutcome.completed rc2 stdout _ =>
          if rc2 = 0 then
            match (pythonSplit '=' (pythonStrip stdout)).get? 1 with
            | none =>
                (VRes.invalid "list index out of range",
                 [VerifierCmd.verify service, VerifierCmd.enddate service])
            | some ds =>
              match env.strptime ds with
              | Except.error msg =>
                  (VRes.invalid msg,
                   [VerifierCmd.verify service, VerifierCmd.enddate service])
              | Except.ok exp =>
                  (VRes.valid ds (some (Int.fdiv (exp - env.now) 86400)),
                   [VerifierCmd.verify service, VerifierCmd.enddate service])
          else
            (VRes.valid "Unknown" none,
             [VerifierCmd.verify service, VerifierCmd.enddate service])
      else
        (VRes.invalid (pythonStrip stderr), [VerifierCmd.verify service])

/-- `check_certificate_validity`: returns the empty dictionary without any
invocation when the CA certificate is absent, otherwise one entry per service
in dictionary order, plus the concatenated invocation trace. -/
def check_certificate_validity (env : Env) (root : String) :
    List (String × VRes) × List VerifierCmd :=
  if env.pathExists (caCrtPath root) = false then ([], [])
  else
    (services.map (fun sp => (sp.fst, (checkServiceValidity env root sp.fst).fst)),
     (services.map (fun sp => (checkServiceValidity env root sp.fst).snd)).flatten)

/-- `results[service] = True` happens only in the success branch of the probe;
every `except` branch stores `False`. -/
def probeResult : ConnOutcome → Bool
  | ConnOutcome.success => true
  | _ => false

/-- `test_ssl_connectivity`: one probe per configured service, in order,
returning the boolean dictionary and the trace of `(host-independent) probes
attempted, keyed by service name and port. -/
def test_ssl_connectivity (env : Env) :
    List (String × Bool) × List (String × Nat) :=
  (services.map (fun sp => (sp.fst, probeResult (env.connect sp.fst))), services)

/-- The per-service validity line of the report, including the urgency
banding: `days_left = validity.get('days_left', 'Unknown')`, and when it is an
int the glyph color is red below 30 days, yellow below 90, green otherwise;
a valid entry without an int `days_left` gets a plain green glyph, anything
else a red cross. -/
def validityLine (validity : Option VRes) : String :=
  match validity with
  | some (VRes.valid _ (some d)) =>
      let color :=
        if d < 30 then Colors.RED
        else if d < 90 then Colors.YELLOW
        else Colors.GREEN
      "  Validity: " ++ color ++ "✓ (expires in " ++ toString d ++ " days)" ++
        Colors.NC
  | some (VRes.valid _ none) =>
      "  Validity: " ++ Colors.GREEN ++ "✓" ++ Colors.NC
  | _ => "  Validity: " ++ Colors.RED ++ "✗" ++ Colors.NC

/-- The four detailed-report lines printed for one service. -/
def serviceBlock (file_results : List (String × Bool))
    (validity_results : List (String × VRes))
    (connectivity_results : List (String × Bool)) (service : String) :
    List String :=
  [service.toUpper ++ ":",
   "  Files: " ++
     (if (List.lookup service file_results).getD false then "✓" else "✗"),
   validityLine (List.lookup service validity_results),
   "  Connection: " ++
     (if (List.lookup service connectivity_results).getD false then "✓" else "✗")]

/-- `generate_report`, restricted to its detailed per-service section (the
summary counts and recommendation lines do not affect any stated claim). -/
def generate_report (file_results : List (String × Bool))
    (validity_results : List (String × VRes))
    (connectivity_results : List (String × Bool)) : List String :=
  (services.map (fun sp =>
    serviceBlock file_results validity_results connectivity_results sp.fst)).flatten

/-- `all(file_results.values())`. -/
def allTrue (rs : List (String × Bool)) : Bool := rs.all (fun p => p.snd)

/-- `all(v.get('valid', False) for v in validity_results.values())`. -/
def allValid (vs : List (String × VRes)) : Bool :=
  vs.all (fun p => p.snd.isValid)

/-- Everything observable about one run of `main`: the exit code, the three
result dictionaries (absent when the run exits before computing them), the
subprocess trace, the probe trace, and the generated report. -/
structure MainOutcome where
  exitCode : Nat
  file_results : Option (List (String × Bool))
  validity_results : Option (List (String × VRes))
  connectivity_results : Option (List (String × Bool))
  cmds : List VerifierCmd
  probes : List (String × Nat)
  report : Option (List String)
deriving DecidableEq

/-- `main`: exit 1 immediately when the SSL directory is missing, otherwise
run the three checks in order, generate the report, and exit 0 exactly when
every file-presence entry is true and every validity entry is valid. -/
def main (env : Env) (root : String) : MainOutcome :=
  if env.pathExists root = false then
    ⟨1, none, none, none, [], [], none⟩
  else
    let fr := validate_certificate_files env root
    let vr := check_certificate_validity env root
    let cr := test_ssl_connectivity env
    ⟨if allTrue fr && allValid vr.fst then 0 else 1,
     some fr, some vr.fst, some cr.fst, vr.snd, cr.snd,
     some (generate_report fr vr.fst cr.fst)⟩

/-- A run in which every path exists, every verification succeeds, and the
expiry-extraction command fails (nonzero status), so every certificate is
reported valid with an unknown expiry. -/
def allGoodEnv : Env where
  pathExists := fun _ => true
  runVerify := fun _ => SubpOutcome.completed 0 "" ""
  runEnddate := fun _ => SubpOutcome.completed 1 "" ""
  strptime := fun _ => Except.error "unused"
  now := 0
  connect := fun _ => ConnOutcome.success

/-- A run whose root SSL directory does not exist. -/
def absentEnv : Env where
  pathExists := fun _ => false
  runVerify := fun _ => SubpOutcome.raised "unused"
  runEnddate := fun _ => SubpOutcome.raised "unused"
  strptime := fun _ => Except.error "unused"
  now := 0
  connect := fun _ => ConnOutcome.refused

/-- A run in which the root directory `ssl` exists but nothing else does; in
particular the CA certificate `ssl/ca/ca.crt` is absent. -/
def noCaEnv : Env where
  pathExists := fun p => p == "ssl"
  runVerify := fun _ => SubpOutcome.raised "unused"
  runEnddate := fun _ => SubpOutcome.raised "unused"
  strptime := fun _ => Except.error "unused"
  now := 0
  connect := fun _ => ConnOutcome.timeout

/-- A run in which every path exists except the redis certificate file. -/
def missingCertEnv : Env where
  pathExists := fun p => !(p == "ssl/redis/redis.crt")
  runVerify := fun _ => SubpOutcome.completed 0 "" ""
  runEnddate := fun _ => SubpOutcome.completed 1 "" ""
  strptime := fun _ => Except.error "unused"
  now := 0
  connect := fun _ => ConnOutcome.success

/-- A run in which verification and expiry extraction both succeed but the
extracted date text is one `strptime` rejects. -/
def badDateEnv : Env where
  pathExists := fun _ => true
  runVerify := fun _ => SubpOutcome.completed 0 "" ""
  runEnddate := fun _ =>
    SubpOutcome.completed 0 "notAfter=Jan 99 00:00:00 2030 GMT" ""
  strptime := fun _ => Except.error "time data does not match format"
  now := 0
  connect := fun _ => ConnOutcome.success

/-! ## Helper lemmas -/

/-- Every invocation traced by one service's validity check is tagged with
that service. -/
theorem checkServiceValidity_cmds_sub (env : Env) (root s : String) :
    ∀ c ∈ (checkServiceValidity env root s).snd,
      c = VerifierCmd.verify s ∨ c = VerifierCmd.enddate s := by
  intro c hc
  unfold checkServiceValidity at hc
  repeat' split at hc
  all_goals simp_all

/-- A service whose certificate file is absent triggers no invocation. -/
theorem checkServiceValidity_cmds_nil (env : Env) (root s : String)
    (h : env.pathExists (certPath root s) = false) :
    (checkServiceValidity env root s).snd = [] := by
  simp [checkServiceValidity, h]

/-- Every invocation traced by the validity checker belongs to some
configured service's own check. -/
theorem validity_cmds_mem (env : Env) (root : String) :
    ∀ c ∈ (check_certificate_validity env root).snd,
      ∃ s, s ∈ serviceNames ∧ c ∈ (checkServiceValidity env root s).snd := by
  intro c hc
  unfold check_certificate_validity at hc
  split at hc
  · simp at hc
  · simp only [List.mem_flatten, List.mem_map] at hc
    obtain ⟨l, ⟨sp, hsp, rfl⟩, hcl⟩ := hc
    exact ⟨sp.fst, List.mem_map_of_mem Prod.fst hsp, hcl⟩

/-- When the CA certificate exists, the validity dictionary has exactly the
per-service entry produced by `checkServiceValidity`. -/
theorem lookup_validity (env : Env) (root service : String)
    (hca : env.pathExists (caCrtPath root) = true)
    (hs : service ∈ serviceNames) :
    List.lookup service (check_certificate_validity env root).fst
      = some (checkServiceValidity env root service).fst := by
  have hs2 : service ∈ ["redis", "elasticsearch", "minio", "rabbitmq", "opencti"] := by
    simpa [serviceNames, services] using hs
  fin_cases hs2 <;>
    simp [check_certificate_validity, hca, services, List.lookup]

/-- The connectivity dictionary has an entry for every configured service,
recording exactly whether the probe outcome was success. -/
theorem lookup_connectivity (env : Env) (s : String) (hs : s ∈ serviceNames) :
    List.lookup s (test_ssl_connectivity env).fst
      = some (probeResult (env.connect s)) := by
  have hs2 : s ∈ ["redis", "elasticsearch", "minio", "rabbitmq", "opencti"] := by
    simpa [serviceNames, services] using hs
  fin_cases hs2 <;> simp [test_ssl_connectivity, services, List.lookup]

/-- When the root directory exists, the exit code is computed from the
file-presence and validity dictionaries alone. -/
theorem main_exitCode (env : Env) (root : String)
    (h : env.pathExists root = true) :
    (main env root).exitCode =
      if allTrue (validate_certificate_files env root) &&
          allValid (check_certificate_validity env root).fst then 0 else 1 := by
  simp [main, h]

/-! ## Claims -/

/-- Claim C1: when the root directory exists, the process exits 0 iff every
file-presence entry (the CA entry and every service entry) is true and every
validity entry is valid; replacing the connectivity oracle never changes the
exit code. -/
theorem c1_exit_code (env : Env) (root : String)
    (h : env.pathExists root = true) :
    ((main env root).exitCode = 0 ↔
      allTrue (validate_certificate_files env root) = true ∧
        allValid (check_certificate_validity env root).fst = true) ∧
    ∀ c : String → ConnOutcome,
      (main { env with connect := c } root).exitCode
        = (main env root).exitCode := by
  constructor
  · rw [main_exitCode env root h]
    cases hf : allTrue (validate_certificate_files env root) <;>
      cases hv : allValid (check_certificate_validity env root).fst <;>
      simp [hf, hv]
  · intro c
    rw [main_exitCode env root h, main_exitCode { env with connect := c } root h]
    rfl

/-- Witness for C1 at a concrete run in which everything passes. -/
theorem c1_exit_code_witness :
    (main allGoodEnv "ssl").exitCode = 0 ∧
    (main { allGoodEnv with connect := fun _ => ConnOutcome.refused }
        "ssl").exitCode = (main allGoodEnv "ssl").exitCode := by
  have h := c1_exit_code allGoodEnv "ssl" (by decide)
  exact ⟨h.1.mpr (by exact ⟨by decide, by decide⟩), h.2 _⟩

/-- Claim C4: a missing root directory exits 1 with no file, validity or
connectivity check performed. -/
theorem c4_missing_root (env : Env) (root : String)
    (h : env.pathExists root = false) :
    main env root = ⟨1, none, none, none, [], [], none⟩ := by
  simp [main, h]

/-- Witness for C4. -/
theorem c4_missing_root_witness :
    main absentEnv "ssl" = ⟨1, none, none, none, [], [], none⟩ :=
  c4_missing_root absentEnv "ssl" rfl

/-- Claim C6: with the root present but the CA certificate absent, the
validity checker returns the empty dictionary with no invocation, and the run
still probes every service and generates the report. -/
theorem c6_missing_ca (env : Env) (root : String)
    (hroot : env.pathExists root = true)
    (hca : env.pathExists (caCrtPath root) = false) :
    check_certificate_validity env root = ([], []) ∧
    (main env root).validity_results = some [] ∧
    (main env root).cmds = [] ∧
    (main env root).probes = services ∧
    (main env root).connectivity_results = some (test_ssl_connectivity env).fst ∧
    (main env root).report
      = some (generate_report (validate_certificate_files env root) []
          (test_ssl_connectivity env).fst) := by
  have h1 : check_certificate_validity env root = ([], []) := by
    simp [check_certificate_validity, hca]
  refine ⟨h1, ?_, ?_, ?_, ?_, ?_⟩ <;>
    simp [main, hroot, h1, test_ssl_connectivity]

/-- Witness for C6. -/
theorem c6_missing_ca_witness :
    check_certificate_validity noCaEnv "ssl" = ([], []) ∧
    (main noCaEnv "ssl").probes = services ∧
    (main noCaEnv "ssl").report ≠ none := by
  have h := c6_missing_ca noCaEnv "ssl" (by decide) (by decide)
  exact ⟨h.1, h.2.2.2.1, by rw [h.2.2.2.2.2]; exact Option.some_ne_none _⟩

/-- Claim C9: with the root present but the CA certificate absent, the exit
code is 1 — the validity conjunct is vacuously true over the empty
dictionary, but the CA file-presence entry is false. -/
theorem c9_missing_ca_exit (env : Env) (root : String)
    (hroot : env.pathExists root = true)
    (hca : env.pathExists (caCrtPath root) = false) :
    (main env root).exitCode = 1 ∧
    allValid (check_certificate_validity env root).fst = true ∧
    List.lookup "ca" (validate_certificate_files env root) = some false := by
  have h1 : check_certificate_validity env root = ([], []) := by
    simp [check_certificate_validity, hca]
  refine ⟨?_, ?_, ?_⟩
  · rw [main_exitCode env root hroot, h1]
    simp [allTrue, validate_certificate_files, hca]
  · rw [h1]
    simp [allValid]
  · simp [validate_certificate_files, List.lookup, hca]

/-- Witness for C9. -/
theorem c9_missing_ca_exit_witness :
    (main noCaEnv "ssl").exitCode = 1 ∧
    allValid (check_certificate_validity noCaEnv "ssl").fst = true := by
  have h := c9_missing_ca_exit noCaEnv "ssl" (by decide) (by decide)
  exact ⟨h.1, h.2.1⟩

/-- Claim C2 counterexample: in a run where verification succeeds and the
expiry-extraction command also succeeds but its date text is unparseable, the
service is reported `Invalid` with the exception text — not `Valid` with
`expires = "Unknown"` as the claim states. -/
theorem c2_counterexample :
    badDateEnv.runVerify "redis" = SubpOutcome.completed 0 "" "" ∧
    badDateEnv.runEnddate "redis"
      = SubpOutcome.completed 0 "notAfter=Jan 99 00:00:00 2030 GMT" "" ∧
    List.lookup "redis" (check_certificate_validity badDateEnv "ssl").fst
      = some (VRes.invalid "time data does not match format") ∧
    ¬ (List.lookup "redis" (check_certificate_validity badDateEnv "ssl").fst
        = some (VRes.valid "Unknown" none)) := by
  refine ⟨rfl, rfl, by decide, by decide⟩

/-- Claim C2 amended: after a successful verification, a failing
expiry-extraction command (nonzero status) still yields `Valid` with
`expires = "Unknown"` and no `daysLeft`; but when extraction succeeds and the
date text cannot be parsed, the exception is caught and the service is
reported `Invalid` with the exception text. -/
theorem c2_amended (env : Env) (root service : String)
    (hca : env.pathExists (caCrtPath root) = true)
    (hs : service ∈ serviceNames)
    (hcert : env.pathExists (certPath root service) = true)
    (vout verr : String)
    (hv : env.runVerify service = SubpOutcome.completed 0 vout verr) :
    (∀ rc2 eout eerr, rc2 ≠ 0 →
        env.runEnddate service = SubpOutcome.completed rc2 eout eerr →
        List.lookup service (check_certificate_validity env root).fst
          = some (VRes.valid "Unknown" none)) ∧
    (∀ eout eerr ds msg,
        env.runEnddate service = SubpOutcome.completed 0 eout eerr →
        (pythonSplit '=' (pythonStrip eout))[1]? = some ds →
        env.strptime ds = Except.error msg →
        List.lookup service (check_certificate_validity env root).fst
          = some (VRes.invalid msg)) := by
  constructor
  · intro rc2 eout eerr hrc2 he
    rw [lookup_validity env root service hca hs]
    simp [checkServiceValidity, hcert, hv, he, hrc2]
  · intro eout eerr ds msg he hsp hp
    rw [lookup_validity env root service hca hs]
    simp [checkServiceValidity, hcert, hv, he, hsp, hp]

/-- Witness for the amended C2, first branch, at a concrete run. -/
theorem c2_amended_witness :
    List.lookup "redis" (check_certificate_validity allGoodEnv "ssl").fst
      = some (VRes.valid "Unknown" none) :=
  (c2_amended allGoodEnv "ssl" "redis" (by decide) (by decide) (by decide)
      "" "" rfl).1 1 "" "" (by decide) rfl

/-- Claim C3 counterexample: in a run where the root exists but the CA
certificate is absent, the validity dictionary is empty while the
connectivity dictionary still has every service, so the service-name key sets
differ. -/
theorem c3_counterexample :
    ¬ ((check_certificate_validity noCaEnv "ssl").fst.map Prod.fst
        = (test_ssl_connectivity noCaEnv).fst.map Prod.fst) := by
  decide

/-- Claim C3 amended: in every run in which the CA certificate file exists,
the service-name key sets of the three dictionaries agree (the file-presence
dictionary carries the extra `ca` key in front). -/
theorem c3_amended (env : Env) (root : String)
    (hca : env.pathExists (caCrtPath root) = true) :
    (validate_certificate_files env root).map Prod.fst = "ca" :: serviceNames ∧
    (check_certificate_validity env root).fst.map Prod.fst = serviceNames ∧
    (test_ssl_connectivity env).fst.map Prod.fst = serviceNames := by
  refine ⟨?_, ?_, ?_⟩ <;>
    simp [validate_certificate_files, check_certificate_validity,
      test_ssl_connectivity, hca, serviceNames]

/-- Witness for the amended C3 at a concrete run. -/
theorem c3_amended_witness :
    (check_certificate_validity allGoodEnv "ssl").fst.map Prod.fst
        = serviceNames ∧
    (test_ssl_connectivity allGoodEnv).fst.map Prod.fst = serviceNames :=
  ⟨(c3_amended allGoodEnv "ssl" (by decide)).2.1,
   (c3_amended allGoodEnv "ssl" (by decide)).2.2⟩

/-- Claim C5 counterexample: the reason recorded for an absent certificate
file is the string "Certificate file not found", not "file not found". -/
theorem c5_counterexample :
    List.lookup "redis" (check_certificate_validity missingCertEnv "ssl").fst
      = some (VRes.invalid "Certificate file not found") ∧
    ¬ (List.lookup "redis"
          (check_certificate_validity missingCertEnv "ssl").fst
        = some (VRes.invalid "file not found")) := by
  exact ⟨by decide, by decide⟩

/-- Claim C5 amended: a service whose certificate file is absent (with the CA
certificate present) is reported `Invalid` with reason
"Certificate file not found", and no verifier or inspection invocation is
attempted for that service. -/
theorem c5_amended (env : Env) (root service : String)
    (hca : env.pathExists (caCrtPath root) = true)
    (hs : service ∈ serviceNames)
    (hcert : env.pathExists (certPath root service) = false) :
    List.lookup service (check_certificate_validity env root).fst
      = some (VRes.invalid "Certificate file not found") ∧
    VerifierCmd.verify service ∉ (check_certificate_validity env root).snd ∧
    VerifierCmd.enddate service ∉ (check_certificate_validity env root).snd := by
  refine ⟨?_, ?_, ?_⟩
  · rw [lookup_validity env root service hca hs]
    simp [checkServiceValidity, hcert]
  · intro hmem
    obtain ⟨s2, _, hc2⟩ := validity_cmds_mem env root _ hmem
    rcases checkServiceValidity_cmds_sub env root s2 _ hc2 with h1 | h1
    · injection h1 with hss
      rw [← hss] at hc2
      rw [checkServiceValidity_cmds_nil env root service hcert] at hc2
      simp at hc2
    · simp at h1
  · intro hmem
    obtain ⟨s2, _, hc2⟩ := validity_cmds_mem env root _ hmem
    rcases checkServiceValidity_cmds_sub env root s2 _ hc2 with h1 | h1
    · simp at h1
    · injection h1 with hss
      rw [← hss] at hc2
      rw [checkServiceValidity_cmds_nil env root service hcert] at hc2
      simp at hc2

/-- Witness for the amended C5 at a concrete run missing the redis
certificate. -/
theorem c5_amended_witness :
    List.lookup "redis" (check_certificate_validity missingCertEnv "ssl").fst
      = some (VRes.invalid "Certificate file not found") ∧
    VerifierCmd.verify "redis"
      ∉ (check_certificate_validity missingCertEnv "ssl").snd := by
  have h := c5_amended missingCertEnv "ssl" "redis" (by decide) (by decide)
    (by decide)
  exact ⟨h.1, h.2.1⟩

/-- Claim C7: the validity glyph of the report is banded on `daysLeft` — red
below 30 days, yellow below 90, green otherwise — and a valid entry without a
known `daysLeft` gets a plain green glyph; the banded line is part of the
generated report for every configured service. -/
theorem c7_banding (expires : String) (d : Int) :
    (d < 30 → validityLine (some (VRes.valid expires (some d)))
        = "  Validity: " ++ Colors.RED ++ "✓ (expires in " ++ toString d ++
            " days)" ++ Colors.NC) ∧
    (30 ≤ d → d < 90 → validityLine (some (VRes.valid expires (some d)))
        = "  Validity: " ++ Colors.YELLOW ++ "✓ (expires in " ++ toString d ++
            " days)" ++ Colors.NC) ∧
    (90 ≤ d → validityLine (some (VRes.valid expires (some d)))
        = "  Validity: " ++ Colors.GREEN ++ "✓ (expires in " ++ toString d ++
            " days)" ++ Colors.NC) ∧
    (validityLine (some (VRes.valid expires none))
        = "  Validity: " ++ Colors.GREEN ++ "✓" ++ Colors.NC) ∧
    ∀ fr vr cr s, s ∈ serviceNames →
      validityLine (List.lookup s vr) ∈ generate_report fr vr cr := by
  refine ⟨?_, ?_, ?_, ?_, ?_⟩
  · intro h1
    simp [validityLine, h1]
  · intro h1 h2
    have hn : ¬ d < 30 := by omega
    simp [validityLine, hn, h2]
  · intro h1
    have hn : ¬ d < 30 := by omega
    have hn2 : ¬ d < 90 := by omega
    simp [validityLine, hn, hn2]
  · simp [validityLine]
  · intro fr vr cr s hs
    simp only [serviceNames] at hs
    obtain ⟨sp, hsp, rfl⟩ := List.mem_map.mp hs
    simp only [generate_report, List.mem_flatten]
    refine ⟨serviceBlock fr vr cr sp.fst, List.mem_map_of_mem _ hsp, ?_⟩
    simp [serviceBlock]

/-- Witness for C7: a certificate 200 days from expiry renders the healthy
green band. -/
theorem c7_banding_witness :
    validityLine (some (VRes.valid "Mar 15 12:00:00 2027 GMT" (some 200)))
      = "  Validity: " ++ Colors.GREEN ++ "✓ (expires in 200 days)" ++
          Colors.NC :=
  (c7_banding "Mar 15 12:00:00 2027 GMT" 200).2.2.1 (by decide)

/-- Claim C8: the connectivity entry of a service is true exactly when its
probe outcome is a successful handshake, and false for timeout, refusal or
any other failure; every service gets an entry and the run still reaches the
report. -/
theorem c8_connectivity (env : Env) (root : String)
    (h : env.pathExists root = true) :
    (∀ o, probeResult o = true ↔ o = ConnOutcome.success) ∧
    (∀ s, s ∈ serviceNames →
        List.lookup s (test_ssl_connectivity env).fst
          = some (probeResult (env.connect s))) ∧
    (test_ssl_connectivity env).fst.map Prod.fst = serviceNames ∧
    (main env root).connectivity_results
      = some (test_ssl_connectivity env).fst ∧
    (main env root).report ≠ none := by
  refine ⟨?_, ?_, ?_, ?_, ?_⟩
  · intro o
    cases o <;> simp [probeResult]
  · intro s hs
    exact lookup_connectivity env s hs
  · simp [test_ssl_connectivity, serviceNames]
  · simp [main, h]
  · simp [main, h]

/-- Witness for C8 at a concrete run whose probes all time out. -/
theorem c8_connectivity_witness :
    (probeResult ConnOutcome.timeout = true
        ↔ ConnOutcome.timeout = ConnOutcome.success) ∧
    List.lookup "redis" (test_ssl_connectivity noCaEnv).fst
      = some (probeResult (noCaEnv.connect "redis")) ∧
    (main noCaEnv "ssl").report ≠ none := by
  have h := c8_connectivity noCaEnv "ssl" (by decide)
  exact ⟨h.1 _, h.2.1 "redis" (by decide), h.2.2.2.2⟩

/-- Claim C10: when the root exists, the prober attempts exactly one probe
per configured service (the service names are distinct) and the connectivity
dictionary has an entry for every service, whatever the file and validity
outcomes were. -/
theorem c10_probe_each (env : Env) (root : String)
    (h : env.pathExists root = true) :
    (main env root).probes = services ∧
    (services.map Prod.fst).Nodup ∧
    (main env root).connectivity_results
      = some (test_ssl_connectivity env).fst ∧
    ∀ s, s ∈ serviceNames →
      ∃ b, List.lookup s (test_ssl_connectivity env).fst = some b := by
  refine ⟨?_, by decide, ?_, ?_⟩
  · simp [main, h, test_ssl_connectivity]
  · simp [main, h]
  · intro s hs
    exact ⟨_, lookup_connectivity env s hs⟩

/-- Witness for C10 at a concrete run with a missing certificate file: the
probe for that service is still attempted. -/
theorem c10_probe_each_witness :
    (main missingCertEnv "ssl").probes = services ∧
    ∃ b, List.lookup "redis" (test_ssl_connectivity missingCertEnv).fst
      = some b := by
  have h := c10_probe_each missingCertEnv "ssl" (by decide)
  exact ⟨h.1, h.2.2.2 "redis" (by decide)⟩

end CertValidator
